import Mathlib

/-!
Shallow embedding of `src/main.py` (Osaroigb/osaro-blog), a Flask blog
application with three SQLAlchemy tables (users, blog_posts, comments) and
route handlers for registration, login, viewing/commenting on posts, and
admin-only post creation / editing / deletion.

Modelling conventions:
* The relational store is a `Store` of three lists mirroring the three
  tables.  Autoincrement primary keys are modelled by `nextId` (one more
  than the current maximum id).
* Nullable foreign-key columns (`BlogPost.author_id`, `Comment.author_id`,
  `Comment.post_id` carry no `nullable=False` in the source) are `Option Nat`.
* Each route handler is a pure function from the incoming store, the
  session (`Option Nat`, the id of the logged-in user, `none` = anonymous)
  and the submitted form data (`Option` of a form record; `none` models a
  GET request or a submission that fails form validation, i.e.
  `validate_on_submit()` returning false) to an `HResult`: the store after
  the request, the flash messages emitted, the HTTP response, and the
  session after the request.
* Handlers that can dereference a missing row return `Option HResult`;
  `none` models the unhandled Python fault (e.g. `BlogPost.query.get`
  returning `None` followed by an attribute access or
  `db.session.delete(None)`).
* The password hasher (werkzeug `generate_password_hash` /
  `check_password_hash`) is an external collaborator: handlers take the
  hash/check function as an explicit argument.
* `@login_required` comes from flask_login.  The source configures the
  `LoginManager` with no `login_view` and no unauthorized callback, so an
  unauthenticated request to a `@login_required` route is answered by
  `abort(401)` (flask_login's `unauthorized()` falls back to a hard 401
  when no login view is set), modelled as `Response.unauthorized`.
* `@admin_only` aborts 403 when `current_user.id != 1`.
* On an `IntegrityError` at commit (duplicate unique column) the request
  ends with a flash + redirect and the store is unchanged: the failed
  transaction is rolled back by the database and the request-scoped ORM
  session is discarded.
* `db.session.delete(post)` on a `BlogPost` whose `comments` relationship
  declares no delete cascade follows SQLAlchemy's default de-association
  behaviour: the comments of the deleted post stay in the table with their
  `post_id` set to NULL (the column is nullable).
-/

namespace OsaroBlog

/-- Row of the `users` table (`class User`, src/main.py lines 45-62). -/
structure User where
  id : Nat
  email : String
  password : String
  name : String
deriving Repr, DecidableEq

/-- Row of the `blog_posts` table (`class BlogPost`, src/main.py lines 65-84).
`author_id` is a nullable foreign key to `users.id`. -/
structure BlogPost where
  id : Nat
  authorId : Option Nat
  title : String
  subtitle : String
  date : String
  body : String
  imgUrl : String
deriving Repr, DecidableEq

/-- Row of the `comments` table (`class Comment`, src/main.py lines 87-102).
`author_id` and `post_id` are nullable foreign keys. -/
structure Comment where
  id : Nat
  text : String
  authorId : Option Nat
  postId : Option Nat
deriving Repr, DecidableEq

/-- The relational store: the three tables. -/
structure Store where
  users : List User
  posts : List BlogPost
  comments : List Comment
deriving Repr, DecidableEq

/-- Autoincrement primary key: one more than the largest id in use. -/
def nextId (ids : List Nat) : Nat :=
  ids.foldr (fun i m => max i m) 0 + 1

/-- Data of a validated `RegisterForm` (fields used at src/main.py 133-143). -/
structure RegisterFormData where
  email : String
  password : String
  name : String
deriving Repr, DecidableEq

/-- Data of a validated `LoginForm` (fields used at src/main.py 165-166). -/
structure LoginFormData where
  email : String
  password : String
deriving Repr, DecidableEq

/-- Data of a validated `CreatePostForm` (fields used at src/main.py
270-276 and 309-313).  `author` is the form's author reference, assigned
to the post's author relationship by `edit_post` (line 312). -/
structure PostFormData where
  title : String
  subtitle : String
  body : String
  author : Option Nat
  imgUrl : String
deriving Repr, DecidableEq

/-- HTTP-level outcome of a request. -/
inductive Response where
  /-- `render_template("index.html", all_posts=posts, ...)` with the ids of
  the listed posts. -/
  | renderHome (postIds : List Nat)
  /-- `render_template("post.html", post=post_to_get, ...)`; the argument is
  the id of the post handed to the template, `none` when
  `BlogPost.query.get` returned `None`. -/
  | renderPost (postId : Option Nat)
  /-- `render_template` of a form page (register.html, login.html,
  make-post.html). -/
  | renderForm (template : String)
  /-- `redirect(url_for(...))`. -/
  | redirect (target : String)
  /-- `abort(403)` from `admin_only`. -/
  | forbidden
  /-- `abort(401)` from flask_login's `login_required` (no `login_view`
  configured on the `LoginManager`). -/
  | unauthorized
deriving Repr, DecidableEq

/-- Result of one handled request: the store afterwards, the flash messages
emitted, the response, and the session afterwards. -/
structure HResult where
  store : Store
  flashes : List String
  response : Response
  session : Option Nat
deriving Repr, DecidableEq

/-- `home` (src/main.py 121-124): list all posts. -/
def home (st : Store) (session : Option Nat) : HResult :=
  { store := st, flashes := [],
    response := .renderHome (st.posts.map (fun p => p.id)),
    session := session }

/-- `register` (src/main.py 127-156).  On a validated submission a new user
row is inserted; a duplicate email makes the commit raise `IntegrityError`
(email is `unique=True`), answered by a flash and a redirect to login;
otherwise `login_user(new_user)` starts a session for the new user. -/
def register (st : Store) (session : Option Nat)
    (hash : String → String) (form : Option RegisterFormData) : HResult :=
  match form with
  | none => { store := st, flashes := [], response := .renderForm "register.html",
              session := session }
  | some f =>
    if st.users.any (fun u => u.email = f.email) then
      { store := st,
        flashes := ["You already signed up with that email, log in instead!"],
        response := .redirect "login", session := session }
    else
      let uid := nextId (st.users.map (fun u => u.id))
      let newUser : User :=
        { id := uid, email := f.email, password := hash f.password,
          name := f.name }
      { store := { st with users := st.users ++ [newUser] },
        flashes := [], response := .redirect "home", session := some uid }

/-- `login` (src/main.py 159-186).  Looks up the first user with the
submitted email; on a matching password hash starts a session, otherwise
flashes and redirects back to the login page without touching the
session. -/
def login (st : Store) (session : Option Nat)
    (check : String → String → Bool) (form : Option LoginFormData) : HResult :=
  match form with
  | none => { store := st, flashes := [], response := .renderForm "login.html",
              session := session }
  | some f =>
    match st.users.find? (fun u => u.email = f.email) with
    | some u =>
      if check u.password f.password then
        { store := st, flashes := [], response := .redirect "home",
          session := some u.id }
      else
        { store := st, flashes := ["Incorrect password, please try again."],
          response := .redirect "login", session := session }
    | none =>
      { store := st, flashes := ["This email does not exist, please try again."],
        response := .redirect "login", session := session }

/-- `get_post` (src/main.py 228-255).  `commentBody` is the body of a
validated `CommentForm` submission (`none` on GET or failed validation).
An authenticated submitter gets a new comment row inserted and a redirect
home; an anonymous submitter gets a flash and a redirect to login.  With
no submission the post page is rendered, with `None` for a missing post.
The authenticated-submission path dereferences `post_to_get.id`, an
unhandled fault when the post does not exist. -/
def get_post (st : Store) (session : Option Nat)
    (index : Nat) (commentBody : Option String) : Option HResult :=
  let postOpt := st.posts.find? (fun p => p.id = index)
  match commentBody with
  | some text =>
    match session with
    | some uid =>
      match postOpt with
      | none => none
      | some p =>
        let newComment : Comment :=
          { id := nextId (st.comments.map (fun c => c.id)), text := text,
            authorId := some uid, postId := some p.id }
        some { store := { st with comments := st.comments ++ [newComment] },
               flashes := [], response := .redirect "home",
               session := session }
    | none =>
      some { store := st,
             flashes := ["You need to login or register to add comments."],
             response := .redirect "login", session := none }
  | none =>
    some { store := st, flashes := [],
           response := .renderPost (postOpt.map (fun p => p.id)),
           session := session }

/-- `new_post` (src/main.py 258-289), guarded by `login_required` then
`admin_only`.  On a validated submission a post row is inserted with the
current date string; a duplicate title makes the commit raise
`IntegrityError` (title is `unique=True`), answered by a flash and a
redirect back to the creation form. -/
def new_post (st : Store) (session : Option Nat)
    (form : Option PostFormData) (today : String) : HResult :=
  match session with
  | none =>
    { store := st, flashes := [], response := .unauthorized, session := none }
  | some uid =>
    if uid ≠ 1 then
      { store := st, flashes := [], response := .forbidden, session := session }
    else
      match form with
      | none => { store := st, flashes := [],
                  response := .renderForm "make-post.html", session := session }
      | some f =>
        if st.posts.any (fun p => p.title = f.title) then
          { store := st,
            flashes := ["You already wrote a blog post with that title!"],
            response := .redirect "new-post", session := session }
        else
          let newPost : BlogPost :=
            { id := nextId (st.posts.map (fun p => p.id)),
              authorId := some uid, title := f.title, subtitle := f.subtitle,
              date := today, body := f.body, imgUrl := f.imgUrl }
          { store := { st with posts := st.posts ++ [newPost] },
            flashes := [], response := .redirect "home", session := session }

/-- `edit_post` (src/main.py 292-323), guarded by `login_required` then
`admin_only`.  Dereferences the post (`post_to_edit.title` while building
the prefilled form), an unhandled fault when it does not exist.  On a
validated submission the row's title, subtitle, body, author and img_url
are assigned from the form; a commit that would duplicate another post's
title raises `IntegrityError`, answered by a flash and a redirect back to
the edit form with the store unchanged. -/
def edit_post (st : Store) (session : Option Nat)
    (postId : Nat) (form : Option PostFormData) : Option HResult :=
  match session with
  | none =>
    some { store := st, flashes := [], response := .unauthorized,
           session := none }
  | some uid =>
    if uid ≠ 1 then
      some { store := st, flashes := [], response := .forbidden,
             session := session }
    else
      match st.posts.find? (fun p => p.id = postId) with
      | none => none
      | some p =>
        match form with
        | none =>
          some { store := st, flashes := [],
                 response := .renderForm "make-post.html", session := session }
        | some f =>
          if st.posts.any (fun q => q.id ≠ p.id ∧ q.title = f.title) then
            some { store := st,
                   flashes := ["You already wrote a blog post with that title!"],
                   response := .redirect ("edit-post/" ++ toString postId),
                   session := session }
          else
            some { store :=
                     { st with posts :=
                         st.posts.map (fun q =>
                           if q.id = p.id then
                             { q with title := f.title, subtitle := f.subtitle,
                                      body := f.body, authorId := f.author,
                                      imgUrl := f.imgUrl }
                           else q) },
                   flashes := [],
                   response := .redirect ("post/" ++ toString postId),
                   session := session }

/-- `delete_post` (src/main.py 326-335), guarded by `login_required` then
`admin_only`.  `indexArg` is `request.args.get("index")` already converted
by `int(...)` (`none` when the query parameter is absent, where `int(None)`
is an unhandled fault).  `db.session.delete` on a missing post
(`BlogPost.query.get` returned `None`) is likewise an unhandled fault.
Deleting the post row de-associates its comments: their nullable `post_id`
is set to NULL (no delete cascade is declared on the relationship). -/
def delete_post (st : Store) (session : Option Nat)
    (indexArg : Option Nat) : Option HResult :=
  match session with
  | none =>
    some { store := st, flashes := [], response := .unauthorized,
           session := none }
  | some uid =>
    if uid ≠ 1 then
      some { store := st, flashes := [], response := .forbidden,
             session := session }
    else
      match indexArg with
      | none => none
      | some pid =>
        match st.posts.find? (fun p => p.id = pid) with
        | none => none
        | some _ =>
          some { store :=
                   { st with
                     posts := st.posts.filter (fun p => p.id ≠ pid),
                     comments := st.comments.map (fun c =>
                       if c.postId = some pid then { c with postId := none }
                       else c) },
                 flashes := [], response := .redirect "home",
                 session := session }

/-- A user id is present in the store. -/
def userExists (st : Store) (uid : Nat) : Bool :=
  st.users.any (fun u => u.id = uid)

/-- A post id is present in the store. -/
def postExists (st : Store) (pid : Nat) : Bool :=
  st.posts.any (fun p => p.id = pid)

/-- Referential integrity as the spec states it: every comment references
an existing user and an existing post, and every post references an
existing user. -/
def refIntegrity (st : Store) : Bool :=
  st.comments.all (fun c =>
    (match c.authorId with
     | some uid => userExists st uid
     | none => false) &&
    (match c.postId with
     | some pid => postExists st pid
     | none => false)) &&
  st.posts.all (fun p =>
    match p.authorId with
    | some uid => userExists st uid
    | none => false)

/-! Concrete fixtures used by witnesses and counterexamples. -/

/-- The first-registered user; its id 1 makes it the implicit admin. -/
def adminU : User :=
  { id := 1, email := "admin@blog.com", password := "h1", name := "Admin" }

/-- A second, non-admin user. -/
def bobU : User :=
  { id := 2, email := "bob@blog.com", password := "h2", name := "Bob" }

/-- A post authored by the admin. -/
def helloPost : BlogPost :=
  { id := 1, authorId := some 1, title := "Hello World", subtitle := "First",
    date := "May 01, 2024", body := "Body one", imgUrl := "img1" }

/-- A second post authored by the admin. -/
def secondPost : BlogPost :=
  { id := 2, authorId := some 1, title := "Second Post", subtitle := "Next",
    date := "May 02, 2024", body := "Body two", imgUrl := "img2" }

/-- A comment by Bob on the first post. -/
def niceComment : Comment :=
  { id := 1, text := "Nice post", authorId := some 2, postId := some 1 }

/-- A store with two users, two posts and one comment, satisfying every
invariant of the spec. -/
def baseStore : Store :=
  { users := [adminU, bobU], posts := [helloPost, secondPost],
    comments := [niceComment] }

/-- The store left by deleting post 2 from `baseStore`. -/
def storeAfterDel2 : Store :=
  { users := [adminU, bobU], posts := [helloPost], comments := [niceComment] }

/-- The store left by a successful edit of post 1 in `baseStore` that
retitles it "Hello Again" and rewrites its other editable fields. -/
def editedStore : Store :=
  { users := [adminU, bobU],
    posts := [{ id := 1, authorId := some 1, title := "Hello Again",
                subtitle := "Sub", date := "May 01, 2024", body := "Body",
                imgUrl := "img" },
              secondPost],
    comments := [niceComment] }

/-- A password check used as the external hash collaborator in witnesses. -/
def eqCheck : String → String → Bool := fun digest plain => digest = plain

/-! Claim theorems. -/

/-- Claim C1 (code_bug): the claim says referential integrity holds after
every operation, in particular that `delete_post` leaves no comment whose
parent post no longer exists.  The code deletes only the post row: on a
store satisfying every invariant, deleting post 1 (which has a comment)
leaves the comment row behind de-associated from any post, so referential
integrity is violated. -/
theorem C1_delete_post_orphans_comment :
    refIntegrity baseStore = true ∧
    (delete_post baseStore (some 1) (some 1)).map
        (fun r => (refIntegrity r.store, r.store.comments))
      = some (false, [{ niceComment with postId := none }]) := by
  decide

/-- Claim C2: registering with an email already held by a stored user
leaves the store untouched (no second user row, the existing account
unchanged), starts no session, flashes the conflict message and redirects
to the login page. -/
theorem C2_register_duplicate_email (st : Store) (session : Option Nat)
    (hash : String → String) (f : RegisterFormData) (u : User)
    (hu : u ∈ st.users) (he : u.email = f.email) :
    register st session hash (some f) =
      { store := st,
        flashes := ["You already signed up with that email, log in instead!"],
        response := .redirect "login", session := session } := by
  have hany : st.users.any (fun v => v.email = f.email) = true :=
    List.any_eq_true.mpr ⟨u, hu, by simp [he]⟩
  unfold register
  simp [hany]

/-- Witness for C2: Bob's email is already taken in `baseStore`. -/
theorem C2_register_duplicate_email_witness :
    register baseStore none id (some ⟨"bob@blog.com", "pw", "Bobby"⟩) =
      { store := baseStore,
        flashes := ["You already signed up with that email, log in instead!"],
        response := .redirect "login", session := none } :=
  C2_register_duplicate_email baseStore none id ⟨"bob@blog.com", "pw", "Bobby"⟩
    bobU (by decide) (by decide)

/-- Claim C8: an anonymous visitor submitting a valid comment form is
flashed and redirected to the login page and no comment row is created:
the store is returned unchanged. -/
theorem C8_anonymous_comment_rejected (st : Store) (index : Nat)
    (body : String) :
    get_post st none index (some body) =
      some { store := st,
             flashes := ["You need to login or register to add comments."],
             response := .redirect "login", session := none } := by
  unfold get_post
  simp

/-- Counterexample to claim C3 as stated: an unauthenticated caller of
new-post is not redirected to the login page; `login_required` answers
with a hard 401 because the `LoginManager` is configured without a
`login_view`. -/
theorem C3_unauthenticated_not_redirected :
    (new_post baseStore none
        (some ⟨"Fresh", "Sub", "Body", some 1, "img"⟩) "May 03, 2024").response
      = Response.unauthorized ∧
    Response.unauthorized ≠ Response.redirect "login" := by
  decide

/-- Claim C3 (amended): every authenticated non-admin caller of new-post,
edit-post or delete-post gets a hard forbidden (403) response, not a
redirect; an unauthenticated caller of the same operations gets a hard
unauthorized (401) response, not a redirect to the login page. -/
theorem C3_admin_gate (st : Store) (uid : Nat) (hne : uid ≠ 1)
    (form : Option PostFormData) (today : String) (pid : Nat)
    (idx : Option Nat) :
    (new_post st (some uid) form today).response = .forbidden ∧
    (edit_post st (some uid) pid form).map (fun r => r.response)
      = some .forbidden ∧
    (delete_post st (some uid) idx).map (fun r => r.response)
      = some .forbidden ∧
    (new_post st none form today).response = .unauthorized ∧
    (edit_post st none pid form).map (fun r => r.response)
      = some .unauthorized ∧
    (delete_post st none idx).map (fun r => r.response)
      = some .unauthorized := by
  unfold new_post edit_post delete_post
  simp [hne]

/-- Witness for C3: Bob (id 2) is rejected hard on all three admin
operations and an anonymous caller gets 401 on all three. -/
theorem C3_admin_gate_witness :
    (new_post baseStore (some 2) none "May 03, 2024").response = .forbidden ∧
    (edit_post baseStore (some 2) 1 none).map (fun r => r.response)
      = some .forbidden ∧
    (delete_post baseStore (some 2) (some 1)).map (fun r => r.response)
      = some .forbidden ∧
    (new_post baseStore none none "May 03, 2024").response = .unauthorized ∧
    (edit_post baseStore none 1 none).map (fun r => r.response)
      = some .unauthorized ∧
    (delete_post baseStore none (some 1)).map (fun r => r.response)
      = some .unauthorized :=
  C3_admin_gate baseStore 2 (by decide) none "May 03, 2024" 1 (some 1)

/-- Claim C4: a login submission whose email matches a stored user but
whose password fails verification, or whose email matches no user, never
authenticates and never mutates anything: store and session are returned
unchanged, the matching flash is emitted and the caller is sent back to
the login page. -/
theorem C4_failed_login_no_auth (st : Store) (session : Option Nat)
    (check : String → String → Bool) (f : LoginFormData) :
    (∀ u, st.users.find? (fun v => v.email = f.email) = some u →
        check u.password f.password = false →
        login st session check (some f) =
          { store := st, flashes := ["Incorrect password, please try again."],
            response := .redirect "login", session := session }) ∧
    (st.users.find? (fun v => v.email = f.email) = none →
        login st session check (some f) =
          { store := st,
            flashes := ["This email does not exist, please try again."],
            response := .redirect "login", session := session }) := by
  constructor
  · intro u hu hc
    unfold login
    simp [hu, hc]
  · intro h
    unfold login
    simp [h]

/-- Witness for C4: a wrong password for Bob and an unknown email both
leave `baseStore` and the (anonymous) session unchanged. -/
theorem C4_failed_login_no_auth_witness :
    login baseStore none eqCheck (some ⟨"bob@blog.com", "wrong"⟩) =
      { store := baseStore,
        flashes := ["Incorrect password, please try again."],
        response := .redirect "login", session := none } ∧
    login baseStore none eqCheck (some ⟨"nobody@blog.com", "pw"⟩) =
      { store := baseStore,
        flashes := ["This email does not exist, please try again."],
        response := .redirect "login", session := none } :=
  ⟨(C4_failed_login_no_auth baseStore none eqCheck
      ⟨"bob@blog.com", "wrong"⟩).1 bobU (by decide) (by decide),
   (C4_failed_login_no_auth baseStore none eqCheck
      ⟨"nobody@blog.com", "pw"⟩).2 (by decide)⟩

/-- Claim C5: editing post P (found by id) with a title already used by a
different existing post Q is rejected: the duplicate-title flash is
emitted, the caller is redirected back to the edit form, and the store —
in particular every field of P — is unchanged. -/
theorem C5_edit_duplicate_title_rejected (st : Store) (pid : Nat)
    (p q : BlogPost) (hp : st.posts.find? (fun r => r.id = pid) = some p)
    (hq : q ∈ st.posts) (hne : q.id ≠ p.id) (f : PostFormData)
    (ht : q.title = f.title) :
    edit_post st (some 1) pid (some f) =
      some { store := st,
             flashes := ["You already wrote a blog post with that title!"],
             response := .redirect ("edit-post/" ++ toString pid),
             session := some 1 } := by
  unfold edit_post
  simp [hp]
  exact ⟨q, hq, hne, ht⟩

/-- Witness for C5: editing post 1 to the title of post 2 is rejected and
`baseStore` is unchanged. -/
theorem C5_edit_duplicate_title_rejected_witness :
    edit_post baseStore (some 1) 1
        (some ⟨"Second Post", "Sub", "Body", some 1, "img"⟩) =
      some { store := baseStore,
             flashes := ["You already wrote a blog post with that title!"],
             response := .redirect "edit-post/1", session := some 1 } :=
  C5_edit_duplicate_title_rejected baseStore 1 helloPost secondPost
    (by decide) (by decide) (by decide)
    ⟨"Second Post", "Sub", "Body", some 1, "img"⟩ (by decide)

/-- Claim C6: creating a post whose title is already used by a stored post
is rejected: the duplicate-title flash is emitted, the caller is
redirected back to the creation form, and the store — in particular the
first post with that title — is unchanged. -/
theorem C6_create_duplicate_title_rejected (st : Store) (p : BlogPost)
    (hp : p ∈ st.posts) (f : PostFormData) (ht : p.title = f.title)
    (today : String) :
    new_post st (some 1) (some f) today =
      { store := st,
        flashes := ["You already wrote a blog post with that title!"],
        response := .redirect "new-post", session := some 1 } := by
  have hany : st.posts.any (fun r => r.title = f.title) = true :=
    List.any_eq_true.mpr ⟨p, hp, by simp [ht]⟩
  unfold new_post
  simp [hany]

/-- Witness for C6: a second "Hello World" post is rejected and
`baseStore` is unchanged. -/
theorem C6_create_duplicate_title_rejected_witness :
    new_post baseStore (some 1)
        (some ⟨"Hello World", "Sub", "Body", some 1, "img"⟩) "May 03, 2024" =
      { store := baseStore,
        flashes := ["You already wrote a blog post with that title!"],
        response := .redirect "new-post", session := some 1 } :=
  C6_create_duplicate_title_rejected baseStore helloPost (by decide)
    ⟨"Hello World", "Sub", "Body", some 1, "img"⟩ (by decide) "May 03, 2024"

/-- Claim C7 (code_bug): deleting post 2 does remove it from the home
list, but a later request for its id is not answered with an explicit
not-found response: the GET path renders the post template with no post
at all (the `Response` type of this program has no not-found
constructor), and the authenticated comment-submission path is an
unhandled fault (`post_to_get.id` on `None`). -/
theorem C7_deleted_post_view_not_found_missing :
    (delete_post baseStore (some 1) (some 2)).map (fun r => r.store)
      = some storeAfterDel2 ∧
    (home storeAfterDel2 none).response = .renderHome [1] ∧
    (get_post storeAfterDel2 none 2 none).map (fun r => r.response)
      = some (.renderPost none) ∧
    get_post storeAfterDel2 (some 2) 2 (some "hello") = none := by
  decide

/-- Counterexample to claim C9 as stated: a successful authenticated
comment submission does not render the post page; the handler answers
with a redirect to the home page. -/
theorem C9_success_redirects_home :
    (get_post baseStore (some 2) 1 (some "great")).map (fun r => r.response)
      = some (.redirect "home") ∧
    Response.redirect "home" ≠ Response.renderPost (some 1) := by
  decide

/-- Claim C9 (amended): for every authenticated user viewing an existing
post P, a successful comment submission appends exactly one comment whose
author is the current user and whose parent post is P, and on success the
handler redirects to the home page. -/
theorem C9_comment_appended (st : Store) (uid : Nat) (index : Nat)
    (p : BlogPost) (hp : st.posts.find? (fun q => q.id = index) = some p)
    (text : String) :
    get_post st (some uid) index (some text) =
      some { store :=
               { st with comments := st.comments ++
                   [{ id := nextId (st.comments.map (fun c => c.id)),
                      text := text, authorId := some uid,
                      postId := some p.id }] },
             flashes := [], response := .redirect "home",
             session := some uid } := by
  unfold get_post
  simp [hp]

/-- Witness for C9: Bob comments on post 1 of `baseStore`. -/
theorem C9_comment_appended_witness :
    get_post baseStore (some 2) 1 (some "great") =
      some { store :=
               { baseStore with comments := baseStore.comments ++
                   [{ id := nextId (baseStore.comments.map (fun c => c.id)),
                      text := "great", authorId := some 2,
                      postId := some helloPost.id }] },
             flashes := [], response := .redirect "home",
             session := some 2 } :=
  C9_comment_appended baseStore 2 1 helloPost (by decide) "great"

/-- The (id, date) projection of every post survives the field update done
by a successful edit. -/
theorem map_id_date_update (posts : List BlogPost) (pid : Nat)
    (f : PostFormData) :
    (posts.map (fun q =>
        if q.id = pid then
          { q with title := f.title, subtitle := f.subtitle, body := f.body,
                   authorId := f.author, imgUrl := f.imgUrl }
        else q)).map (fun p => (p.id, p.date))
      = posts.map (fun p => (p.id, p.date)) := by
  induction posts with
  | nil => rfl
  | cons q rest ih =>
    simp only [List.map_cons, ih]
    congr 1
    split <;> rfl

/-- Claim C10: every `edit_post` call — successful, rejected, forbidden or
faulting — leaves the users table, the comments table (hence every post's
attached comments), and every post's id and creation date unchanged; only
title, subtitle, body, author and image URL can change. -/
theorem C10_edit_frame (st : Store) (session : Option Nat) (pid : Nat)
    (form : Option PostFormData) (r : HResult)
    (h : edit_post st session pid form = some r) :
    r.store.users = st.users ∧ r.store.comments = st.comments ∧
    r.store.posts.map (fun p => (p.id, p.date))
      = st.posts.map (fun p => (p.id, p.date)) := by
  unfold edit_post at h
  split at h
  · simp only [Option.some.injEq] at h
    subst h
    exact ⟨rfl, rfl, rfl⟩
  · split at h
    · simp only [Option.some.injEq] at h
      subst h
      exact ⟨rfl, rfl, rfl⟩
    · split at h
      · exact Option.noConfusion h
      · split at h
        · simp only [Option.some.injEq] at h
          subst h
          exact ⟨rfl, rfl, rfl⟩
        · split at h
          · simp only [Option.some.injEq] at h
            subst h
            exact ⟨rfl, rfl, rfl⟩
          · simp only [Option.some.injEq] at h
            subst h
            exact ⟨rfl, rfl, map_id_date_update st.posts _ _⟩

/-- Witness for C10: a successful retitling of post 1 keeps users,
comments, post ids and post dates intact. -/
theorem C10_edit_frame_witness :
    (editedStore.users = baseStore.users ∧
     editedStore.comments = baseStore.comments ∧
     editedStore.posts.map (fun p => (p.id, p.date))
       = baseStore.posts.map (fun p => (p.id, p.date))) :=
  C10_edit_frame baseStore (some 1) 1
    (some ⟨"Hello Again", "Sub", "Body", some 1, "img"⟩)
    { store := editedStore, flashes := [],
      response := .redirect "post/1", session := some 1 }
    (by decide)

end OsaroBlog
